import Mathlib

/-!
Shallow embedding of src/main.py of the rpr-mcp repository: the Bitbucket
header builder, the three MCP tool functions (get_pull_requests,
get_pull_requests_changes, get_file_diff), their URL construction, and the
try/except structure around the shared httpx client. The remote server and
the transport are modelled as an explicit outcome parameter: either a
response carrying a status code and a body, or a transport-level failure
raised by the client before any response is received.
-/

namespace RprMcp

/-- Python rendering of an optional string inside an f-string: os.getenv
returns None when the variable is missing, and f-string interpolation
renders None as the literal string None. -/
def pyStr : Option String → String
  | none => "None"
  | some s => s

/-- Python exceptions that can arise on the code paths of src/main.py. -/
inductive PyExc where
  | httpStatusError (status : Nat)
  | requestError (msg : String)
  | attributeError (msg : String)
  | valueError (msg : String)
  | unicodeEncodeError (msg : String)
  deriving DecidableEq, Repr

/-- Python str(e) for the exceptions above, as interpolated by the broad
except Exception handlers of the two list tools. -/
def PyExc.message : PyExc → String
  | .httpStatusError status => toString status
  | .requestError msg => msg
  | .attributeError msg => msg
  | .valueError msg => msg
  | .unicodeEncodeError msg => msg

/-- The base64 alphabet in index order. -/
def base64Alphabet : List Char :=
  "ABCDEFGHIJKLMNOPQRSTUVWXYZabcdefghijklmnopqrstuvwxyz0123456789+/".toList

/-- The base64 digit for a 6-bit value. -/
def b64Char (n : Nat) : Char := base64Alphabet.getD n '?'

/-- base64.b64encode on a byte list (RFC 4648 with padding), as used at
src/main.py line 45. -/
def b64encodeBytes : List Nat → String
  | [] => ""
  | [b1] =>
      String.mk [b64Char (b1 / 4), b64Char (b1 % 4 * 16), '=', '=']
  | [b1, b2] =>
      String.mk [b64Char (b1 / 4), b64Char (b1 % 4 * 16 + b2 / 16),
        b64Char (b2 % 16 * 4), '=']
  | b1 :: b2 :: b3 :: rest =>
      String.mk [b64Char (b1 / 4), b64Char (b1 % 4 * 16 + b2 / 16),
        b64Char (b2 % 16 * 4 + b3 / 64), b64Char (b3 % 64)] ++
        b64encodeBytes rest

/-- str.encode("ascii") at src/main.py line 44: the byte list of an ascii
string, raising UnicodeEncodeError when a character is outside the ascii
range. -/
def encodeAscii (s : String) : Except PyExc (List Nat) :=
  if s.toList.all (fun c => c.toNat < 128) then
    .ok (s.toList.map Char.toNat)
  else
    .error (.unicodeEncodeError "ascii codec cannot encode character")

/-- get_bitbucket_headers (src/main.py lines 35-51): reads
BITBUCKET_USERNAME and BITBUCKET_PASSWORD from the environment (None when
missing, rendered as the literal None by the f-string), builds
username:password, encodes it as ascii bytes, base64-encodes, and returns a
plain Python dict with Accept and Authorization entries, modelled as an
association list. -/
def get_bitbucket_headers (username password : Option String) :
    Except PyExc (List (String × String)) := do
  let auth_string := pyStr username ++ ":" ++ pyStr password
  let auth_bytes ← encodeAscii auth_string
  let base64_string := b64encodeBytes auth_bytes
  return [("Accept", "application/json"),
          ("Authorization", "Basic " ++ base64_string)]

/-- The attribute names a plain Python dict exposes. There is no attribute
named set among them. -/
def dictAttrs : List String :=
  ["clear", "copy", "fromkeys", "get", "items", "keys", "pop", "popitem",
   "setdefault", "update", "values"]

/-- Python hasattr on a plain dict. -/
def dictHasAttr (name : String) : Bool := dictAttrs.contains name

/-- The call headers.set("Accept", "text/plain") at src/main.py line 163:
Python attribute lookup on the dict raises AttributeError because dict has
no attribute named set; were the attribute present, the call would replace
the entry for the key. -/
def dictSetAttr (headers : List (String × String)) (key value : String) :
    Except PyExc (List (String × String)) :=
  if dictHasAttr "set" then
    .ok (headers.map (fun kv => if kv.1 = key then (kv.1, value) else kv))
  else
    .error (.attributeError "dict object has no attribute set")

/-- URL built by get_pull_requests (src/main.py line 65); the query string
carries the key=value pairs state=OPEN, start=0 and limit=99999. -/
def get_pull_requests_url (base : Option String)
    (project repository : String) : String :=
  pyStr base ++ "/rest/api/1.0/projects/" ++ project ++ "/repos/" ++
    repository ++ "/pull-requests?state=OPEN&start=0&limit=99999"

/-- URL built by get_pull_requests_changes (src/main.py line 114): the
f-string reads changes?start{0}&limit{99999} with no equals signs, so the
query string is the literal start0&limit99999. -/
def get_pull_requests_changes_url (base : Option String)
    (project repository : String) (pull_request_id : Int) : String :=
  pyStr base ++ "/rest/api/1.0/projects/" ++ project ++ "/repos/" ++
    repository ++ "/pull-requests/" ++ toString pull_request_id ++
    "/changes?start0&limit99999"

/-- URL built by get_file_diff (src/main.py line 161). -/
def get_file_diff_url (base : Option String) (project repository : String)
    (pull_request_id : Int) (path : String) : String :=
  pyStr base ++ "/rest/api/1.0/projects/" ++ project ++ "/repos/" ++
    repository ++ "/pull-requests/" ++ toString pull_request_id ++
    "/diff/" ++ path

/-- Outcome of one outbound GET through the shared httpx client: either a
response carrying a status code and a body of type β, or a transport-level
failure (httpx.RequestError: DNS failure, connection refused, timeout)
raised before any response is received. -/
inductive Transport (β : Type) where
  | response (status : Nat) (body : β)
  | failure (msg : String)

/-- await httpx_client.get(url, headers): raises httpx.RequestError on a
transport failure, otherwise yields the response. -/
def httpGet {β : Type} (t : Transport β) : Except PyExc (Nat × β) :=
  match t with
  | .response status body => .ok (status, body)
  | .failure msg => .error (.requestError msg)

/-- response.raise_for_status(): httpx raises HTTPStatusError for any
response whose status code is outside the 2xx success range. -/
def raise_for_status (status : Nat) : Except PyExc Unit :=
  if 200 ≤ status ∧ status < 300 then .ok ()
  else .error (.httpStatusError status)

/-- The user object nested inside a pull request author. Field values are
modelled by their f-string rendering, with none for an absent key. -/
structure PRUser where
  displayName : Option String
  deriving DecidableEq, Repr

/-- The author object of a pull request. -/
structure PRAuthor where
  user : Option PRUser
  deriving DecidableEq, Repr

/-- One element of the top-level values array of the pull-request list
response. Each field is an Option String where none models an absent key
and some s a present value whose f-string rendering is s. -/
structure PR where
  id : Option String
  title : Option String
  state : Option String
  author : Option PRAuthor
  deriving DecidableEq, Repr

/-- pr.get("author", dict()).get("user", dict()).get("displayName", None)
at src/main.py line 82: an absent author or user collapses to an empty
dict, whose get yields None. -/
def pr_author_displayName (pr : PR) : Option String :=
  match pr.author with
  | none => none
  | some a =>
    match a.user with
    | none => none
    | some u => u.displayName

/-- The pr_info block built for one pull request (src/main.py lines 78-83):
four labelled lines, each ending in a newline, with the literal None
substituted for every missing field. -/
def pr_info (pr : PR) : String :=
  "ID: " ++ pyStr pr.id ++ "\n" ++
  "Title: " ++ pyStr pr.title ++ "\n" ++
  "State: " ++ pyStr pr.state ++ "\n" ++
  "Author: " ++ pyStr (pr_author_displayName pr) ++ "\n"

/-- One element of the values array of a changes response:
change.get("path", dict()).get("toString", None) is flattened into
pathToString (none when either key is absent), and change.get("type", None)
into type. -/
structure Change where
  pathToString : Option String
  type : Option String
  deriving DecidableEq, Repr

/-- The change_info block built for one change (src/main.py lines
127-130). -/
def change_info (c : Change) : String :=
  "File: " ++ pyStr c.pathToString ++ "\n" ++
  "Type: " ++ pyStr c.type ++ "\n"

/-- The try block of get_pull_requests (src/main.py lines 64-86): build the
URL, build the headers, issue the GET, raise for a non-2xx status, parse
the JSON body (a parse failure raises ValueError), then either return the
sentinel for an absent or empty values array ("if not
response.json().get(values)" treats both None and the empty list as falsy)
or join one pr_info block per element with a newline. The JSON body is
modelled as an Except String carrying either a decode failure message or
the optional values array. -/
def get_pull_requests_try (username password base : Option String)
    (project repository : String)
    (upstream : Transport (Except String (Option (List PR)))) :
    Except PyExc String := do
  let _url := get_pull_requests_url base project repository
  let _headers ← get_bitbucket_headers username password
  let (status, body) ← httpGet upstream
  let _ ← raise_for_status status
  let values ← match body with
    | .error m => Except.error (PyExc.valueError m)
    | .ok v => Except.ok v
  match values with
  | none => return "No pull requests found."
  | some [] => return "No pull requests found."
  | some pull_requests =>
      return String.intercalate "\n" (pull_requests.map pr_info)

/-- get_pull_requests (src/main.py lines 57-97): the try body wrapped in
the three except clauses, in source order — httpx.HTTPStatusError,
httpx.RequestError, then the broad except Exception that makes this tool
total: it always returns a string. -/
def get_pull_requests (username password base : Option String)
    (project repository : String)
    (upstream : Transport (Except String (Option (List PR)))) : String :=
  match get_pull_requests_try username password base project repository
      upstream with
  | .ok s => s
  | .error (.httpStatusError status) =>
      "Error fetching pull requests: " ++ toString status
  | .error (.requestError msg) =>
      "Error fetching pull requests: " ++ msg
  | .error e =>
      "Error processing pull requests: " ++ e.message

/-- The try block of get_pull_requests_changes (src/main.py lines 113-132):
identical shape to get_pull_requests with the changes URL, the changes
sentinel, and change_info blocks. -/
def get_pull_requests_changes_try (username password base : Option String)
    (project repository : String) (pull_request_id : Int)
    (upstream : Transport (Except String (Option (List Change)))) :
    Except PyExc String := do
  let _url :=
    get_pull_requests_changes_url base project repository pull_request_id
  let _headers ← get_bitbucket_headers username password
  let (status, body) ← httpGet upstream
  let _ ← raise_for_status status
  let values ← match body with
    | .error m => Except.error (PyExc.valueError m)
    | .ok v => Except.ok v
  match values with
  | none => return "No changes found in the pull request."
  | some [] => return "No changes found in the pull request."
  | some changes =>
      return String.intercalate "\n" (changes.map change_info)

/-- get_pull_requests_changes (src/main.py lines 103-143): the try body
wrapped in the three except clauses, in source order; the broad except
Exception clause makes this tool total as well. -/
def get_pull_requests_changes (username password base : Option String)
    (project repository : String) (pull_request_id : Int)
    (upstream : Transport (Except String (Option (List Change)))) : String :=
  match get_pull_requests_changes_try username password base project
      repository pull_request_id upstream with
  | .ok s => s
  | .error (.httpStatusError status) =>
      "Error fetching pull request changes: " ++ toString status
  | .error (.requestError msg) =>
      "Error fetching pull request changes: " ++ msg
  | .error e =>
      "Error processing pull request changes: " ++ e.message

/-- The try block of get_file_diff (src/main.py lines 160-168): build the
URL, build the headers, then call headers.set("Accept", "text/plain"); on
the plain dict this raises AttributeError before the GET is ever issued.
Were the call to succeed, the GET would be issued, a non-2xx status would
raise, and the raw response body would be returned unchanged. -/
def get_file_diff_try (username password base : Option String)
    (project repository : String) (pull_request_id : Int) (path : String)
    (upstream : Transport String) : Except PyExc String := do
  let _url := get_file_diff_url base project repository pull_request_id path
  let headers ← get_bitbucket_headers username password
  let _headers2 ← dictSetAttr headers "Accept" "text/plain"
  let (status, body) ← httpGet upstream
  let _ ← raise_for_status status
  return body

/-- get_file_diff (src/main.py lines 149-176): only two except clauses,
httpx.HTTPStatusError and httpx.RequestError; every other exception
propagates to the caller, modelled by an Except.error result. -/
def get_file_diff (username password base : Option String)
    (project repository : String) (pull_request_id : Int) (path : String)
    (upstream : Transport String) : Except PyExc String :=
  match get_file_diff_try username password base project repository
      pull_request_id path upstream with
  | .ok s => .ok s
  | .error (.httpStatusError status) =>
      .ok ("Error fetching file diff: " ++ toString status)
  | .error (.requestError msg) =>
      .ok ("Error fetching file diff: " ++ msg)
  | .error e => .error e

/-- The single pull request of the end-to-end scenario in the spec:
id 42, title Fix bug, state OPEN, author display name Jane Doe. -/
def pr42 : PR :=
  { id := some "42", title := some "Fix bug", state := some "OPEN",
    author := some { user := some { displayName := some "Jane Doe" } } }

/-- C3: for every invocation of get_file_diff, whenever the header builder
returns its dict (any configuration whose rendered credentials are ascii,
missing ones included), that dict has no set attribute, so the call
headers.set("Accept", "text/plain") raises AttributeError; the error is
matched by neither of the two except clauses (httpx.HTTPStatusError and
httpx.RequestError), so the evaluation ends in an uncaught AttributeError.
The conclusion holds for every transport outcome, so the result never
depends on the upstream: no outbound HTTP request is issued. -/
theorem get_file_diff_always_raises_attributeError
    (username password base : Option String) (project repository : String)
    (pull_request_id : Int) (path : String) (hs : List (String × String))
    (hok : get_bitbucket_headers username password = .ok hs)
    (upstream : Transport String) :
    dictHasAttr "set" = false ∧
    get_file_diff username password base project repository pull_request_id
        path upstream =
      .error (.attributeError "dict object has no attribute set") := by
  refine ⟨rfl, ?_⟩
  unfold get_file_diff get_file_diff_try
  rw [hok]
  rfl

/-- C3 witness: the concrete invocation with missing credentials, an
explicit base URL and a transport outcome that would answer 200 evaluates
to the uncaught AttributeError. -/
theorem get_file_diff_always_raises_attributeError_witness :
    get_bitbucket_headers none none =
      .ok [("Accept", "application/json"),
           ("Authorization", "Basic Tm9uZTpOb25l")] ∧
    get_file_diff none none (some "http://bitbucket.example") "PROJ" "repo"
        1 "file.txt" (.response 200 "diff text") =
      .error (.attributeError "dict object has no attribute set") :=
  ⟨rfl,
   (get_file_diff_always_raises_attributeError none none
      (some "http://bitbucket.example") "PROJ" "repo" 1 "file.txt"
      [("Accept", "application/json"),
       ("Authorization", "Basic Tm9uZTpOb25l")] rfl
      (.response 200 "diff text")).2⟩

/-- C1 (code bug): an exception does propagate out of a tool. The concrete
invocation of get_file_diff below, with an upstream that would answer 200,
evaluates to an uncaught AttributeError instead of returning a string: the
two except clauses of get_file_diff match only httpx.HTTPStatusError and
httpx.RequestError, and there is no broad except Exception clause. -/
theorem tool_exception_propagates :
    get_file_diff none none (some "http://bitbucket.example") "ENG"
        "backend" 7 "README.md" (.response 200 "ok body") =
      .error (.attributeError "dict object has no attribute set") := rfl

/-- C2 (code bug): with an upstream 2xx response carrying a diff body,
get_file_diff does not return that body: it raises AttributeError at the
header-override step before the request is even issued, so the
byte-for-byte pass-through claimed for the 2xx case never happens. -/
theorem diff_body_never_returned :
    get_file_diff none none (some "http://bitbucket.example") "ENG"
        "backend" 7 "src/a.py" (.response 200 "diff --git a/a b/a\n") =
      .error (.attributeError "dict object has no attribute set") := rfl

/-- C4 (code bug): get_file_diff never issues an outbound request at all,
so no request with an overridden Accept header exists: the result is the
same uncaught AttributeError whether the transport would deliver a 200
response or fail, proving the transport is never consulted. -/
theorem accept_override_never_sent :
    get_file_diff none none (some "http://bitbucket.example") "P1" "r1" 9
        "doc.md" (.response 200 "body") =
      get_file_diff none none (some "http://bitbucket.example") "P1" "r1" 9
        "doc.md" (.failure "host unreachable") ∧
    get_file_diff none none (some "http://bitbucket.example") "P1" "r1" 9
        "doc.md" (.failure "host unreachable") =
      .error (.attributeError "dict object has no attribute set") :=
  ⟨rfl, rfl⟩

/-- C5 (code bug): the query string of the changes URL is the literal
start0&limit99999 — the f-string at src/main.py line 114 lacks the equals
signs — whereas get_pull_requests builds the key=value pairs
state=OPEN&start=0&limit=99999; so the changes URL carries no start or
limit query parameter at all. -/
theorem changes_url_missing_equals :
    get_pull_requests_changes_url (some "http://bitbucket.example") "ENG"
        "backend" 7 =
      "http://bitbucket.example/rest/api/1.0/projects/ENG/repos/backend/pull-requests/7/changes?start0&limit99999" ∧
    get_pull_requests_url (some "http://bitbucket.example") "ENG"
        "backend" =
      "http://bitbucket.example/rest/api/1.0/projects/ENG/repos/backend/pull-requests?state=OPEN&start=0&limit=99999" := by
  exact ⟨by decide, by decide⟩

/-- C6: a 2xx response whose top-level values key is absent or holds an
empty array makes get_pull_requests return exactly the sentinel "No pull
requests found." and get_pull_requests_changes return exactly the sentinel
"No changes found in the pull request."; both go through the success path,
not an except clause. -/
theorem empty_values_sentinels
    (username password base : Option String) (project repository : String)
    (pull_request_id : Int) (hs : List (String × String))
    (hok : get_bitbucket_headers username password = .ok hs)
    (status : Nat) (h1 : 200 ≤ status) (h2 : status < 300)
    (vp : Option (List PR)) (vc : Option (List Change))
    (hvp : vp = none ∨ vp = some []) (hvc : vc = none ∨ vc = some []) :
    get_pull_requests username password base project repository
        (.response status (.ok vp)) = "No pull requests found." ∧
    get_pull_requests_changes username password base project repository
        pull_request_id (.response status (.ok vc)) =
      "No changes found in the pull request." := by
  rcases hvp with rfl | rfl <;> rcases hvc with rfl | rfl <;>
    constructor <;>
    simp [get_pull_requests, get_pull_requests_try, get_pull_requests_changes,
      get_pull_requests_changes_try, hok, httpGet, raise_for_status, h1, h2,
      Bind.bind, Except.bind, Pure.pure, Except.pure]

/-- C6 witness: missing credentials, status 200, an absent values key for
the pull-request list and an empty values array for the changes list. -/
theorem empty_values_sentinels_witness :
    get_pull_requests none none (some "http://bitbucket.example") "ENG"
        "backend" (.response 200 (.ok none)) = "No pull requests found." ∧
    get_pull_requests_changes none none (some "http://bitbucket.example")
        "ENG" "backend" 4 (.response 200 (.ok (some ([] : List Change)))) =
      "No changes found in the pull request." :=
  empty_values_sentinels none none (some "http://bitbucket.example") "ENG"
    "backend" 4
    [("Accept", "application/json"),
     ("Authorization", "Basic Tm9uZTpOb25l")] rfl 200 (by decide)
    (by decide) none (some []) (Or.inl rfl) (Or.inr rfl)

/-- C7: a 2xx response carrying a nonempty values array yields one pr_info
block per element, in array order, joined by a single newline; since every
block itself ends in a newline, consecutive blocks are separated by exactly
one blank line, and each block carries the ID, Title, State and Author
lines with the literal None substituted for a missing field. -/
theorem pull_requests_format (username password base : Option String)
    (project repository : String) (hs : List (String × String))
    (hok : get_bitbucket_headers username password = .ok hs)
    (status : Nat) (h1 : 200 ≤ status) (h2 : status < 300)
    (prs : List PR) (hne : prs ≠ []) :
    get_pull_requests username password base project repository
        (.response status (.ok (some prs))) =
      String.intercalate "\n" (prs.map pr_info) := by
  rcases prs with _ | ⟨p, ps⟩
  · exact absurd rfl hne
  · simp [get_pull_requests, get_pull_requests_try, hok, httpGet,
      raise_for_status, h1, h2, Bind.bind, Except.bind, Pure.pure,
      Except.pure]

/-- C7 witness: the end-to-end scenario of the spec — a single pull request
with id 42, title Fix bug, state OPEN and author display name Jane Doe
produces exactly the four labelled lines. -/
theorem pull_requests_format_witness :
    get_pull_requests none none (some "http://bitbucket.example") "ENG"
        "backend" (.response 200 (.ok (some [pr42]))) =
      "ID: 42\nTitle: Fix bug\nState: OPEN\nAuthor: Jane Doe\n" :=
  (pull_requests_format none none (some "http://bitbucket.example") "ENG"
    "backend"
    [("Accept", "application/json"),
     ("Authorization", "Basic Tm9uZTpOb25l")] rfl 200 (by decide)
    (by decide) [pr42] (by decide)).trans (by decide)

/-- C8 counterexample: with an upstream outcome of status 404, the
get_file_diff operation does not return any string: it raises
AttributeError at the header-override step before the request is issued,
so it never produces a string containing the status code. -/
theorem non2xx_diff_returns_no_string :
    get_file_diff none none (some "http://bitbucket.example") "PROJ" "repo"
        5 "src/app.py" (.response 404 "Not Found") =
      .error (.attributeError "dict object has no attribute set") := rfl

/-- C8 amended: for get_pull_requests and get_pull_requests_changes, any
non-2xx upstream status makes the tool return its fixed error string
carrying the numeric status code, with no exception escaping;
get_file_diff instead raises AttributeError before any request and never
returns such a string. -/
theorem non2xx_status_strings (username password base : Option String)
    (project repository : String) (pull_request_id : Int) (path : String)
    (hs : List (String × String))
    (hok : get_bitbucket_headers username password = .ok hs)
    (status : Nat) (hbad : ¬ (200 ≤ status ∧ status < 300))
    (bp : Except String (Option (List PR)))
    (bc : Except String (Option (List Change))) (bd : String) :
    get_pull_requests username password base project repository
        (.response status bp) =
      "Error fetching pull requests: " ++ toString status ∧
    get_pull_requests_changes username password base project repository
        pull_request_id (.response status bc) =
      "Error fetching pull request changes: " ++ toString status ∧
    get_file_diff username password base project repository pull_request_id
        path (.response status bd) =
      .error (.attributeError "dict object has no attribute set") := by
  refine ⟨?_, ?_, ?_⟩
  · simp [get_pull_requests, get_pull_requests_try, hok, httpGet,
      raise_for_status, if_neg hbad, Bind.bind, Except.bind, Pure.pure,
      Except.pure]
  · simp [get_pull_requests_changes, get_pull_requests_changes_try, hok,
      httpGet, raise_for_status, if_neg hbad, Bind.bind, Except.bind,
      Pure.pure, Except.pure]
  · unfold get_file_diff get_file_diff_try
    rw [hok]
    rfl

/-- C8 witness: an upstream 404 yields the two list-tool strings carrying
404, while get_file_diff raises. -/
theorem non2xx_status_strings_witness :
    get_pull_requests none none (some "http://bitbucket.example") "ENG"
        "backend" (.response 404 (.ok none)) =
      "Error fetching pull requests: 404" ∧
    get_pull_requests_changes none none (some "http://bitbucket.example")
        "ENG" "backend" 9 (.response 404 (.ok none)) =
      "Error fetching pull request changes: 404" ∧
    get_file_diff none none (some "http://bitbucket.example") "ENG"
        "backend" 9 "d.txt" (.response 404 "Not Found") =
      .error (.attributeError "dict object has no attribute set") := by
  have h := non2xx_status_strings none none (some "http://bitbucket.example")
    "ENG" "backend" 9 "d.txt"
    [("Accept", "application/json"),
     ("Authorization", "Basic Tm9uZTpOb25l")] rfl 404 (by decide)
    (.ok none) (.ok none) "Not Found"
  exact ⟨h.1.trans (by decide), h.2.1.trans (by decide), h.2.2⟩

/-- Left cancellation for string concatenation, used to separate the
transport-failure string from the status-code string. -/
theorem string_append_left_cancel {a b c : String} (h : a ++ b = a ++ c) :
    b = c := by
  have hd := congrArg String.data h
  simp [String.data_append] at hd
  exact String.ext hd

/-- C9 counterexample: a transport failure whose message happens to be the
string 404 produces exactly the same result as an upstream 404 status, so
the transport-failure string is not distinct from every status string and
does embed a numeric code; furthermore get_file_diff on a transport
failure returns no string at all, raising AttributeError instead. -/
theorem transport_string_collision :
    get_pull_requests none none (some "http://bitbucket.example") "PROJ"
        "repo" (.failure "404") =
      get_pull_requests none none (some "http://bitbucket.example") "PROJ"
        "repo" (.response 404 (.ok none)) ∧
    get_file_diff none none (some "http://bitbucket.example") "PROJ"
        "repo" 3 "a.txt" (.failure "connection refused") =
      .error (.attributeError "dict object has no attribute set") :=
  ⟨by decide, rfl⟩

/-- C9 amended: for the two list tools a transport failure yields the
error-fetching string with the transport message embedded verbatim, and
that string differs from the string produced for a non-2xx status whenever
the message differs from the decimal status code — the code itself does
not guarantee that side condition, and get_file_diff never reaches its
transport handler. -/
theorem transport_failure_strings (username password base : Option String)
    (project repository : String) (pull_request_id : Int)
    (hs : List (String × String))
    (hok : get_bitbucket_headers username password = .ok hs)
    (msg : String) (status : Nat)
    (hbad : ¬ (200 ≤ status ∧ status < 300))
    (hmsg : msg ≠ toString status)
    (bp : Except String (Option (List PR)))
    (bc : Except String (Option (List Change))) :
    get_pull_requests username password base project repository
        (.failure msg) = "Error fetching pull requests: " ++ msg ∧
    get_pull_requests username password base project repository
        (.failure msg) ≠
      get_pull_requests username password base project repository
        (.response status bp) ∧
    get_pull_requests_changes username password base project repository
        pull_request_id (.failure msg) =
      "Error fetching pull request changes: " ++ msg ∧
    get_pull_requests_changes username password base project repository
        pull_request_id (.failure msg) ≠
      get_pull_requests_changes username password base project repository
        pull_request_id (.response status bc) := by
  have h1 : get_pull_requests username password base project repository
      (.failure msg) = "Error fetching pull requests: " ++ msg := by
    simp [get_pull_requests, get_pull_requests_try, hok, httpGet,
      Bind.bind, Except.bind]
  have h2 : get_pull_requests username password base project repository
      (.response status bp) =
      "Error fetching pull requests: " ++ toString status := by
    simp [get_pull_requests, get_pull_requests_try, hok, httpGet,
      raise_for_status, if_neg hbad, Bind.bind, Except.bind]
  have h3 : get_pull_requests_changes username password base project
      repository pull_request_id (.failure msg) =
      "Error fetching pull request changes: " ++ msg := by
    simp [get_pull_requests_changes, get_pull_requests_changes_try, hok,
      httpGet, Bind.bind, Except.bind]
  have h4 : get_pull_requests_changes username password base project
      repository pull_request_id (.response status bc) =
      "Error fetching pull request changes: " ++ toString status := by
    simp [get_pull_requests_changes, get_pull_requests_changes_try, hok,
      httpGet, raise_for_status, if_neg hbad, Bind.bind, Except.bind]
  refine ⟨h1, ?_, h3, ?_⟩
  · rw [h1, h2]
    intro hcontra
    exact hmsg (string_append_left_cancel hcontra)
  · rw [h3, h4]
    intro hcontra
    exact hmsg (string_append_left_cancel hcontra)

/-- C9 witness: a realistic transport message, distinct from the string
404, yields strings different from the 404 status strings on both list
tools. -/
theorem transport_failure_strings_witness :
    get_pull_requests none none (some "http://bitbucket.example") "ENG"
        "backend" (.failure "All connection attempts failed") =
      "Error fetching pull requests: All connection attempts failed" ∧
    get_pull_requests none none (some "http://bitbucket.example") "ENG"
        "backend" (.failure "All connection attempts failed") ≠
      get_pull_requests none none (some "http://bitbucket.example") "ENG"
        "backend" (.response 404 (.ok none)) ∧
    get_pull_requests_changes none none (some "http://bitbucket.example")
        "ENG" "backend" 2 (.failure "All connection attempts failed") =
      "Error fetching pull request changes: All connection attempts failed" ∧
    get_pull_requests_changes none none (some "http://bitbucket.example")
        "ENG" "backend" 2 (.failure "All connection attempts failed") ≠
      get_pull_requests_changes none none (some "http://bitbucket.example")
        "ENG" "backend" 2 (.response 404 (.ok none)) :=
  transport_failure_strings none none (some "http://bitbucket.example")
    "ENG" "backend" 2
    [("Accept", "application/json"),
     ("Authorization", "Basic Tm9uZTpOb25l")] rfl
    "All connection attempts failed" 404 (by decide) (by decide)
    (.ok none) (.ok none)

/-- C10 counterexample: a configured username containing a non-ascii
character makes the builder fail locally, raising UnicodeEncodeError at
the encode("ascii") step instead of returning a header mapping. -/
theorem headers_nonascii_raises :
    get_bitbucket_headers (some "müller") (some "secret") =
      .error (.unicodeEncodeError "ascii codec cannot encode character") :=
  rfl

/-- C10 amended: whenever the rendered credential pair is pure ascii —
missing values being rendered as the literal None — the builder succeeds
and returns the Authorization header Basic followed by the base64 encoding
of username:password; being a pure function of the credential pair, the
result is deterministic. -/
theorem headers_basic_auth (username password : Option String)
    (hascii : (pyStr username ++ ":" ++ pyStr password).toList.all
        (fun c => c.toNat < 128) = true) :
    get_bitbucket_headers username password =
      .ok [("Accept", "application/json"),
           ("Authorization", "Basic " ++
             b64encodeBytes
               ((pyStr username ++ ":" ++ pyStr password).toList.map
                 Char.toNat))] := by
  have h := hascii
  simp at h
  simp [get_bitbucket_headers, encodeAscii, h, Bind.bind, Except.bind,
    Pure.pure, Except.pure]
  rw [if_pos h]

/-- C10 witness: both credentials missing — the pair renders as None:None,
which is ascii, and the header is Basic Tm9uZTpOb25l. -/
theorem headers_basic_auth_witness :
    get_bitbucket_headers none none =
      .ok [("Accept", "application/json"),
           ("Authorization", "Basic Tm9uZTpOb25l")] :=
  (headers_basic_auth none none (by decide)).trans rfl

end RprMcp
